import Mathlib

/-
Verification development for the JWT/JWKS token verification and
permission/role authorization core of the template-fastapi repository.

The Python sources embedded here:
  app/auth/services/verify_token.py        (VerifyTokenService, jose backend)
  app/auth/providers/jwt_provider.py       (JWTOAuth2Provider, exceptions API)
  app/infrastructure/auth/jwt_provider.py  (JWTOAuth2Provider, Either API)
  app/application/auth/authentication_service.py (AuthenticationService)
  app/auth/models.py, app/domain/auth/user.py, app/auth/schemas.py (models)
  shared/exceptions.py, app/auth/exceptions.py (exception taxonomy)

Machine integers are modelled as Nat/Int; timestamps as Int seconds; the
cryptographic signature check of the jose / PyJWT libraries is modelled
abstractly: a token records which key material it was signed with, and the
check succeeds exactly when that material matches the resolved JWKS key.
-/

set_option autoImplicit false

namespace TemplateFastapi

/-- Exception values that the authentication core can produce. Each
constructor corresponds to one Python exception class; message formatting
performed by the Python constructors is kept only where a claim depends
on it. -/
inductive Exc where
  /-- app.auth.exceptions.ExpiredTokenException (message fixed by its init). -/
  | expiredTokenException : Exc
  /-- app.auth.exceptions.InvalidTokenException with its reason argument. -/
  | invalidTokenException (reason : String) : Exc
  /-- shared.exceptions.TokenExpiredException with its message. -/
  | tokenExpiredException (msg : String) : Exc
  /-- shared.exceptions.AuthenticationException with its message. -/
  | authenticationException (msg : String) : Exc
  /-- shared.exceptions.NotImplementedProviderException with the method name. -/
  | notImplementedProviderException (method : String) : Exc
  /-- Python builtin NotImplementedError, as returned by the Either revision. -/
  | notImplementedError : Exc
  /-- jwt.exceptions.PyJWKClientError: no JWKS key matches the kid. -/
  | pyJwkClientError : Exc
  /-- jwt.ExpiredSignatureError (PyJWT) or jose ExpiredSignatureError. -/
  | expiredSignatureError : Exc
  /-- jwt.InvalidTokenError (PyJWT) or jose JWTError, with its message. -/
  | invalidTokenError (msg : String) : Exc
  /-- pydantic ValidationError raised while constructing a model. -/
  | validationError (msg : String) : Exc
  deriving Repr, DecidableEq

/-- Models str(e) for the exception values, as used when one exception
message embeds another. Only the cases the sources exercise matter. -/
def excStr : Exc → String
  | .expiredTokenException => "Token has expired"
  | .invalidTokenException r => "Invalid token: " ++ r
  | .tokenExpiredException m => m
  | .authenticationException m => m
  | .notImplementedProviderException m => m ++ " must be implemented per provider."
  | .notImplementedError => "NotImplementedError"
  | .pyJwkClientError => "Unable to find a signing key that matches the kid"
  | .expiredSignatureError => "Signature has expired"
  | .invalidTokenError m => m
  | .validationError m => m

/-- Models the Python idiom `s or default` on an optional string: None and
the empty string are falsy, any other string is returned unchanged. -/
def pyOr (s : Option String) (dflt : String) : String :=
  match s with
  | none => dflt
  | some v => if v = "" then dflt else v

/-- Removes every occurrence of the marker urn: from a character list,
as str.replace does (left to right, emitted characters are not rescanned). -/
def removeUrnMark : List Char → List Char
  | 'u' :: 'r' :: 'n' :: ':' :: rest => removeUrnMark rest
  | c :: rest => c :: removeUrnMark rest
  | [] => []

/-- Removes every occurrence of the marker uuid: from a character list. -/
def removeUuidMark : List Char → List Char
  | 'u' :: 'u' :: 'i' :: 'd' :: ':' :: rest => removeUuidMark rest
  | c :: rest => c :: removeUuidMark rest
  | [] => []

/-- Whether a character is an opening or closing curly brace. -/
def isBraceChar (c : Char) : Bool :=
  c = '{' || c = '}'

/-- Models str.strip of curly braces: drops braces from both ends. -/
def stripBraces (cs : List Char) : List Char :=
  ((cs.dropWhile isBraceChar).reverse.dropWhile isBraceChar).reverse

/-- Value of one hexadecimal digit, none for a non-hex character. -/
def hexVal (c : Char) : Option Nat :=
  if '0' ≤ c ∧ c ≤ '9' then some (c.toNat - 48)
  else if 'a' ≤ c ∧ c ≤ 'f' then some (c.toNat - 87)
  else if 'A' ≤ c ∧ c ≤ 'F' then some (c.toNat - 55)
  else none

/-- Value of a hexadecimal digit string, none if any character is not hex. -/
def hexListVal : List Char → Option Nat
  | [] => some 0
  | c :: cs =>
    match hexVal c, hexListVal cs with
    | some d, some v => some (d * 16 ^ cs.length + v)
    | _, _ => none

/-- Models uuid.UUID(s) parsing from the Python standard library, returning
the 128-bit integer value on success: the parser removes the urn: and uuid:
markers, strips surrounding braces, drops dashes, and then requires exactly
32 hexadecimal digits. (The Python int constructor also tolerates an
optional sign and surrounding whitespace inside the 32 characters; the
claims proved here do not depend on those corner inputs.) -/
def pyUuidParse (s : String) : Option Nat :=
  let hx := (stripBraces (removeUuidMark (removeUrnMark s.data))).filter
    (fun c => c ≠ '-')
  if hx.length = 32 then hexListVal hx else none

/-- Embeds JWTOAuth2Provider._is_uuid: true when uuid.UUID(value) succeeds. -/
def isUuidStr (value : String) : Bool :=
  (pyUuidParse value).isSome

/-- Models uuid.uuid5(uuid.NAMESPACE_DNS, s): a deterministic, total map
from a name string to a 128-bit UUID value. The SHA-1 compression inside
uuid5 is abstracted by a deterministic polynomial hash seeded with the
integer value of NAMESPACE_DNS; every claim proved about this map uses only
its determinism and totality. -/
def uuid5dns (s : String) : Nat :=
  s.data.foldl (fun a c => (a * 1099511628211 + c.toNat) % 2 ^ 128)
    0x6ba7b8109dad11d180b400c04fd430c8

/-- Embeds the user_id derivation of JWTOAuth2Provider.get_user_info:
uuid.UUID(sub) if _is_uuid(sub) else uuid.uuid5(uuid.NAMESPACE_DNS, sub).
The source parses the string twice (once in _is_uuid, once in uuid.UUID);
both parses are the same pure function, so a single match is equivalent. -/
def deriveUserId (sub : String) : Nat :=
  match pyUuidParse sub with
  | some v => v
  | none => uuid5dns sub

/-- Splits a character list on a separator character; always returns at
least one (possibly empty) group. -/
def splitOnChar (sep : Char) : List Char → List (List Char)
  | [] => [[]]
  | c :: cs =>
    let r := splitOnChar sep cs
    if c = sep then [] :: r
    else
      match r with
      | [] => [[c]]
      | g :: gs => (c :: g) :: gs

/-- Models the pydantic EmailStr validation (the email-validator package),
simplified to the shape this development relies on: exactly one at-sign,
a non-empty local part, and a non-empty dotted domain whose labels are all
non-empty; no spaces. In particular the empty string, any string without an
at-sign, and any string with an empty local part or domain are rejected,
exactly as email-validator rejects them. -/
def isValidEmail (s : String) : Bool :=
  match splitOnChar '@' s.data with
  | [lp, dom] =>
    decide (lp ≠ []) && decide (dom ≠ []) &&
    (let labels := splitOnChar '.' dom
     decide (2 ≤ labels.length) && labels.all (fun p => decide (p ≠ []))) &&
    lp.all (fun c => decide (c ≠ ' ')) && dom.all (fun c => decide (c ≠ ' '))
  | _ => false

/-- A public signing key as served by the JWKS endpoint: its key id and an
abstract identifier of its key material (the modulus and exponent of the
concrete RSA key are abstracted to one value; two keys verify the same
signatures exactly when their material coincides). -/
structure SigningKey where
  kid : String
  material : Nat
  deriving Repr, DecidableEq

/-- A JWKS document: the keys list of the JSON response. -/
structure Jwks where
  keys : List SigningKey
  deriving Repr, DecidableEq

/-- Raw claims of a decoded token payload dictionary. An absent field is
none; audiences are kept as a list (a single-string aud claim is the
singleton list, as both jose and PyJWT normalize it). -/
structure RawClaims where
  sub : Option String := none
  exp : Option Int := none
  iat : Option Int := none
  iss : Option String := none
  aud : Option (List String) := none
  email : Option String := none
  email_verified : Option Bool := none
  provider : Option String := none
  roles : Option (List String) := none
  permissions : Option (List String) := none
  deriving Repr, DecidableEq

/-- A bearer token, modelled in already-parsed form: the kid field of its
unverified header, the claims of its payload, and the abstract material of
the key that actually signed it (none for a token with a garbage
signature). Cryptographic verification under a JWKS key succeeds exactly
when signedBy matches the material of that key. -/
structure Token where
  kid : Option String := none
  claims : RawClaims := {}
  signedBy : Option Nat := none
  deriving Repr, DecidableEq

/-- Embeds app/auth/models.py TokenPayload (also
app/domain/auth/token.py TokenPayload): the normalized payload the
Either-style provider builds from decoded claims. -/
structure TokenPayload where
  sub : String
  exp : Int
  iat : Option Int := none
  email : Option String := none
  email_verified : Bool := false
  provider : Option String := none
  roles : List String := []
  permissions : List String := []
  deriving Repr, DecidableEq

/-- Embeds app/domain/auth/user.py AuthenticatedUser (identical to the
app/auth/models.py revision). The user_id UUID is its 128-bit value; the
created_at and last_login datetime.now defaults are omitted as wall-clock
metadata no claim mentions. -/
structure AuthenticatedUser where
  user_id : Nat
  email : String
  email_verified : Bool := false
  name : Option String := none
  picture : Option String := none
  provider : String
  provider_user_id : String
  roles : List String := []
  permissions : List String := []
  metadata : List (String × String) := []
  deriving Repr, DecidableEq

/-- Embeds app/auth/schemas.py AuthenticatedUser: the Auth0 revision keeps
only the subject string and the permission list. -/
structure SimpleAuthenticatedUser where
  user_id : String
  permissions : List String := []
  deriving Repr, DecidableEq

/- ----------------------------------------------------------------------
VerifyTokenService (app/auth/services/verify_token.py, jose backend)
---------------------------------------------------------------------- -/

/-- Auth0 settings consumed by VerifyTokenService. -/
structure Auth0Settings where
  domain : String
  audience : String
  algorithm : String
  deriving Repr, DecidableEq

/-- Environment of a VerifyTokenService run: its settings and the response
the JWKS endpoint would give if fetched (an HTTP or network failure is the
error case). The remote is fixed within one environment, matching a single
deterministic external world. -/
structure VtsEnv where
  settings : Auth0Settings
  remote : Except String Jwks
  deriving Repr

/-- Mutable state of a VerifyTokenService instance: the _jwks_cache field,
None until the first successful fetch. -/
structure VtsState where
  jwksCache : Option Jwks
  deriving Repr, DecidableEq

/-- Result triple of a stateful VerifyTokenService step: the returned value
or raised exception, the state after the call, and how many JWKS fetches
the call performed. -/
abbrev VtsResult (α : Type) : Type :=
  Except Exc α × VtsState × Nat

/-- Embeds VerifyTokenService._get_jwks: return the cache when populated;
otherwise fetch once, cache the document on success, and raise
InvalidTokenException on an HTTP error (leaving the cache empty). -/
def getJwks (env : VtsEnv) (st : VtsState) : VtsResult Jwks :=
  match st.jwksCache with
  | some cached => (.ok cached, st, 0)
  | none =>
    match env.remote with
    | .ok doc => (.ok doc, ⟨some doc⟩, 1)
    | .error _ => (.error (.invalidTokenException "Unable to fetch signing keys"), st, 1)

/-- Embeds VerifyTokenService._get_signing_key: read the kid of the
unverified header (a missing or empty kid is falsy and rejected), resolve
the JWKS through _get_jwks, and return the first key whose kid matches;
raise InvalidTokenException with reason Signing key not found when none
does. The PEM conversion of the matched key is abstracted away. -/
def getSigningKey (env : VtsEnv) (st : VtsState) (tok : Token) :
    VtsResult SigningKey :=
  match tok.kid with
  | none => (.error (.invalidTokenException "Token missing key ID"), st, 0)
  | some kid =>
    if kid = "" then
      (.error (.invalidTokenException "Token missing key ID"), st, 0)
    else
      match getJwks env st with
      | (.error e, st', n) => (.error e, st', n)
      | (.ok doc, st', n) =>
        match doc.keys.find? (fun k => k.kid = kid) with
        | some key => (.ok key, st', n)
        | none => (.error (.invalidTokenException "Signing key not found"), st', n)

/-- Outcome of the jose jwt.decode call, before the service maps library
exceptions to domain exceptions. -/
inductive JoseOutcome where
  | ok (claims : RawClaims)
  | expired
  | jwtError (msg : String)
  deriving Repr, DecidableEq

/-- Models jose jwt.decode(token, key, algorithms, audience, issuer) in the
order the library performs the checks: jws.verify checks the signature
first; _validate_claims then checks exp (expired when exp < now, zero
leeway), then aud (the configured audience must be among the aud claim
values, a missing aud claim is rejected because an audience is configured),
then iss (must equal the configured issuer exactly). A missing exp claim
skips the expiry check, as the library does. -/
def joseDecode (tok : Token) (key : SigningKey) (audience issuer : String)
    (now : Int) : JoseOutcome :=
  if tok.signedBy ≠ some key.material then
    .jwtError "Signature verification failed."
  else
    match tok.claims.exp with
    | some e =>
      if e < now then .expired else joseValidateAudIss tok audience issuer
    | none => joseValidateAudIss tok audience issuer
where
  /-- The aud and iss steps of jose _validate_claims. -/
  joseValidateAudIss (tok : Token) (audience issuer : String) : JoseOutcome :=
    match tok.claims.aud with
    | none => .jwtError "Audience claim expected, but not in claims"
    | some auds =>
      if audience ∈ auds then
        match tok.claims.iss with
        | some i => if i = issuer then .ok tok.claims else .jwtError "Invalid issuer"
        | none => .jwtError "Invalid issuer"
      else .jwtError "Invalid audience"

/-- Embeds VerifyTokenService.execute: resolve the signing key, decode and
validate through jose, validate the payload into TokenPayload (pydantic
requires the sub claim), and build the schemas AuthenticatedUser. Exception
mapping of the source: ExpiredSignatureError becomes ExpiredTokenException;
a JWTError message becomes InvalidTokenException with that message; any
other exception — including the InvalidTokenException raised inside
_get_signing_key, which is not a JWTError — is caught by the final generic
handler and wrapped as InvalidTokenException with a Token verification
failed prefix around str(e). -/
def vtsExecute (env : VtsEnv) (st : VtsState) (now : Int) (tok : Token) :
    VtsResult SimpleAuthenticatedUser :=
  match getSigningKey env st tok with
  | (.error e, st', n) =>
    (.error (.invalidTokenException ("Token verification failed: " ++ excStr e)), st', n)
  | (.ok key, st', n) =>
    match joseDecode tok key env.settings.audience
        ("https://" ++ env.settings.domain ++ "/") now with
    | .expired => (.error .expiredTokenException, st', n)
    | .jwtError m => (.error (.invalidTokenException m), st', n)
    | .ok claims =>
      match claims.sub with
      | none =>
        (.error (.invalidTokenException
          "Token verification failed: validation error for TokenPayload"), st', n)
      | some sub =>
        (.ok { user_id := sub, permissions := claims.permissions.getD [] }, st', n)

/-- Runs a sequence of VerifyTokenService.execute calls on one service
instance, threading the cache state and accumulating the fetch count. -/
def runVerifications (env : VtsEnv) (now : Int) :
    VtsState → List Token → VtsState × Nat
  | st, [] => (st, 0)
  | st, t :: ts =>
    let step := vtsExecute env st now t
    let rest := runVerifications env now step.2.1 ts
    (rest.1, step.2.2 + rest.2)

/- ----------------------------------------------------------------------
JWTOAuth2Provider (app/infrastructure/auth/jwt_provider.py, Either API;
the app/auth/providers/jwt_provider.py revision shares verify_token and
get_user_info logic and differs only in raising instead of returning)
---------------------------------------------------------------------- -/

/-- Configuration of a JWTOAuth2Provider instance together with the key
set its PyJWKClient resolves keys from (the client caches the fetched JWKS;
within one environment the available keys are this fixed list). -/
structure ProvCfg where
  jwksKeys : List SigningKey
  issuer : String
  audience : Option String := none
  deriving Repr

/-- Models PyJWKClient.get_signing_key_from_jwt: read the kid of the
unverified header and return the matching key of the key set; raise
PyJWKClientError when no key matches (a token without a kid matches no
key). -/
def getSigningKeyFromJwt (cfg : ProvCfg) (tok : Token) :
    Except Exc SigningKey :=
  match tok.kid with
  | none => .error .pyJwkClientError
  | some kid =>
    match cfg.jwksKeys.find? (fun k => k.kid = kid) with
    | some key => .ok key
    | none => .error .pyJwkClientError

/-- Models the claim-validation phase of PyJWT jwt.decode as called with
options verify_exp true and verify_aud set exactly when an audience is
configured: after the signature check, exp is validated (expired when
exp ≤ now, zero leeway), then the audience (skipped when none is
configured; when one is configured the aud claim must contain it), then
the issuer (the iss claim must equal the configured issuer). A missing exp
claim skips the expiry check. -/
def pyjwtValidateClaims (cfg : ProvCfg) (now : Int) (c : RawClaims) :
    Except Exc RawClaims :=
  match c.exp with
  | some e =>
    if e ≤ now then .error .expiredSignatureError
    else pyjwtValidateAudIss cfg c
  | none => pyjwtValidateAudIss cfg c
where
  /-- The aud and iss steps of PyJWT _validate_claims. -/
  pyjwtValidateAudIss (cfg : ProvCfg) (c : RawClaims) : Except Exc RawClaims :=
    match cfg.audience with
    | some a =>
      match c.aud with
      | none => .error (.invalidTokenError "Token is missing the aud claim")
      | some auds =>
        if a ∈ auds then pyjwtValidateIss cfg c
        else .error (.invalidTokenError "Audience does not match")
    | none => pyjwtValidateIss cfg c
  /-- The iss step of PyJWT _validate_claims. -/
  pyjwtValidateIss (cfg : ProvCfg) (c : RawClaims) : Except Exc RawClaims :=
    match c.iss with
    | some i =>
      if i = cfg.issuer then .ok c
      else .error (.invalidTokenError "Invalid issuer")
    | none => .error (.invalidTokenError "Token is missing the iss claim")

/-- Embeds JWTOAuth2Provider.verify_token (Either revision): resolve the
signing key through the PyJWKClient, verify the signature, validate the
claims, and build the TokenPayload with the dict.get defaults of the
source (sub defaults to the empty string, exp to 0, email_verified to
false, provider to unknown, roles and permissions to the empty list). All
raised library exceptions are returned as Failure values. -/
def verifyTokenE (cfg : ProvCfg) (now : Int) (tok : Token) :
    Except Exc TokenPayload :=
  match getSigningKeyFromJwt cfg tok with
  | .error e => .error e
  | .ok key =>
    if tok.signedBy ≠ some key.material then
      .error (.invalidTokenError "Signature verification failed")
    else
      match pyjwtValidateClaims cfg now tok.claims with
      | .error e => .error e
      | .ok c =>
        .ok { sub := c.sub.getD ""
              exp := c.exp.getD 0
              iat := c.iat
              email := c.email
              email_verified := c.email_verified.getD false
              provider := some (c.provider.getD "unknown")
              roles := c.roles.getD []
              permissions := c.permissions.getD [] }

/-- Models the pydantic construction of the domain AuthenticatedUser: the
email field is declared EmailStr, so construction succeeds exactly when
the supplied email string passes email validation; every other field is
stored unvalidated. -/
def mkAuthenticatedUser (uid : Nat) (email : String) (emailVerified : Bool)
    (provider providerUserId : String) (roles perms : List String) :
    Except Exc AuthenticatedUser :=
  if isValidEmail email then
    .ok { user_id := uid
          email := email
          email_verified := emailVerified
          provider := provider
          provider_user_id := providerUserId
          roles := roles
          permissions := perms }
  else
    .error (.validationError "value is not a valid email address")

/-- Embeds the construction step of JWTOAuth2Provider.get_user_info, from
a verified TokenPayload to the AuthenticatedUser: user_id is the UUID
parse of sub when well-formed, else the namespace UUID of sub; email is
payload.email or the empty string; provider is payload.provider or
unknown; provider_user_id is sub; roles and permissions are copied. A
pydantic ValidationError raised by the constructor is caught by the
generic handler of the source and returned as a Failure. -/
def toUser (payload : TokenPayload) : Except Exc AuthenticatedUser :=
  mkAuthenticatedUser (deriveUserId payload.sub) (pyOr payload.email "")
    payload.email_verified (pyOr payload.provider "unknown") payload.sub
    payload.roles payload.permissions

/-- Embeds JWTOAuth2Provider.get_user_info (Either revision): verify the
token, short-circuit a verification Failure unchanged, otherwise build
the AuthenticatedUser from the payload, any construction exception
becoming a Failure. -/
def getUserInfo (cfg : ProvCfg) (now : Int) (tok : Token) :
    Except Exc AuthenticatedUser :=
  match verifyTokenE cfg now tok with
  | .error e => .error e
  | .ok payload => toUser payload

/-- Embeds JWTOAuth2Provider.validate_permissions: all required
permissions must be members of the user permission list. -/
def validatePermissions (user : AuthenticatedUser)
    (requiredPermissions : List String) : Bool :=
  requiredPermissions.all (fun permission => user.permissions.contains permission)

/-- Embeds JWTOAuth2Provider.validate_roles: at least one required role
must be a member of the user role list. -/
def validateRoles (user : AuthenticatedUser) (requiredRoles : List String) :
    Bool :=
  requiredRoles.any (fun role => user.roles.contains role)

/-- Embeds AuthenticatedUser.has_all_permissions of app/auth/schemas.py,
the Auth0 revision of the same check. -/
def hasAllPermissions (user : SimpleAuthenticatedUser)
    (permissions : List String) : Bool :=
  permissions.all (fun p => user.permissions.contains p)

/-- Embeds JWTOAuth2Provider.refresh_token of the
app/auth/providers/jwt_provider.py revision: unconditionally raises
NotImplementedProviderException for the refresh_token method. The token
dictionary it would return on success is modelled as an association
list. -/
def refreshTokenP (_refreshToken : String) :
    Except Exc (List (String × String)) :=
  .error (.notImplementedProviderException "refresh_token")

/-- Embeds JWTOAuth2Provider.revoke_token of the same revision:
unconditionally raises NotImplementedProviderException for the
revoke_token method. -/
def revokeTokenP (_token : String) : Except Exc Bool :=
  .error (.notImplementedProviderException "revoke_token")

/-- Embeds JWTOAuth2Provider.refresh_token of the Either revision:
unconditionally returns Failure(NotImplementedError(...)). -/
def refreshTokenE (_refreshToken : String) :
    Except Exc (List (String × String)) :=
  .error .notImplementedError

/-- Embeds JWTOAuth2Provider.revoke_token of the Either revision:
unconditionally returns Failure(NotImplementedError(...)). -/
def revokeTokenE (_token : String) : Except Exc Bool :=
  .error .notImplementedError

/- ----------------------------------------------------------------------
AuthenticationService (app/application/auth/authentication_service.py)
---------------------------------------------------------------------- -/

/-- Embeds AuthenticationService.authenticate as instantiated with the
modelled JWTOAuth2Provider: verify_token first, returning its Failure
unchanged when it fails, then get_user_info, whose result (Success or
Failure) is returned. -/
def authenticate (cfg : ProvCfg) (now : Int) (tok : Token) :
    Except Exc AuthenticatedUser :=
  match verifyTokenE cfg now tok with
  | .error e => .error e
  | .ok _ => getUserInfo cfg now tok

/-- Outcome of calling a Python function: either it returns a value or it
raises an exception. -/
inductive PyCall (α : Type) where
  | ret (a : α)
  | exn (e : Exc)
  deriving Repr

/-- An arbitrary behaviour of an OAuth2Provider implementation as seen by
AuthenticationService: each method may return an Either value or raise
any exception. -/
structure ProviderBehavior where
  verifyTok : String → PyCall (Except Exc TokenPayload)
  userInfo : String → PyCall (Except Exc AuthenticatedUser)

/-- Embeds AuthenticationService.authenticate over an arbitrary provider
behaviour, body and try/except included: an exception raised anywhere in
the body is caught by the except Exception handler and returned as
Failure(e); a Failure from verify_token is returned as is; a Success from
verify_token leads to get_user_info, whose Either result is returned.
The outer PyCall records whether authenticate itself raises. -/
def authenticateB (p : ProviderBehavior) (accessToken : String) :
    PyCall (Except Exc AuthenticatedUser) :=
  match p.verifyTok accessToken with
  | .exn e => .ret (.error e)
  | .ret (.error e) => .ret (.error e)
  | .ret (.ok _) =>
    match p.userInfo accessToken with
    | .exn e => .ret (.error e)
    | .ret r => .ret r

/-- Whether a PyCall outcome is a normal return. -/
def PyCall.isRet {α : Type} : PyCall α → Bool
  | .ret _ => true
  | .exn _ => false

/- ----------------------------------------------------------------------
Concrete instances used to evaluate the theorems on closed inputs
---------------------------------------------------------------------- -/

/-- A concrete signing key for closed evaluations. -/
def keyW : SigningKey := ⟨"k1", 7⟩

/-- A concrete one-key JWKS document. -/
def docW : Jwks := ⟨[keyW]⟩

/-- Concrete Auth0 settings matching the test fixtures of the repository. -/
def settingsW : Auth0Settings := ⟨"test.auth0.com", "aud1", "RS256"⟩

/-- A concrete VerifyTokenService environment whose remote serves docW. -/
def envW : VtsEnv := ⟨settingsW, .ok docW⟩

/-- A VerifyTokenService state whose cache is already populated with docW. -/
def stW : VtsState := ⟨some docW⟩

/-- A token signed by keyW that expired ten seconds before time zero. -/
def tokExpW : Token :=
  { kid := some "k1"
    claims := { sub := some "auth0|123456"
                exp := some (-10)
                iss := some "https://test.auth0.com/"
                aud := some ["aud1"]
                permissions := some ["read:data"] }
    signedBy := some 7 }

/-- The same expired token but carrying a signature made by different key
material, so its signature does not verify under keyW. -/
def tokBadSigW : Token :=
  { tokExpW with signedBy := some 8 }

/-- A token whose header kid matches no key of docW. -/
def tokNoKeyW : Token :=
  { tokExpW with kid := some "nope" }

/-- A concrete provider configuration for the Either-style provider. -/
def cfgW : ProvCfg := ⟨[keyW], "https://issuer.example", some "aud1"⟩

/-- A valid, unexpired token for cfgW whose subject is a well-formed
UUID string. -/
def tokGoodW : Token :=
  { kid := some "k1"
    claims := { sub := some "12345678-1234-5678-1234-567812345678"
                exp := some 100
                iss := some "https://issuer.example"
                aud := some ["aud1"]
                email := some "user@example.com"
                email_verified := some true
                provider := some "supabase"
                roles := some ["admin"]
                permissions := some ["read:data"] }
    signedBy := some 7 }

/-- The AuthenticatedUser that authenticate produces for tokGoodW. -/
def uW : AuthenticatedUser :=
  { user_id := 0x12345678123456781234567812345678
    email := "user@example.com"
    email_verified := true
    provider := "supabase"
    provider_user_id := "12345678-1234-5678-1234-567812345678"
    roles := ["admin"]
    permissions := ["read:data"] }

/-- A verified TokenPayload carrying no email claim. -/
def payloadNoEmailW : TokenPayload :=
  { sub := "user-1", exp := 100 }

/-- A verified TokenPayload carrying a well-formed email and a UUID
subject. -/
def payloadGoodW : TokenPayload :=
  { sub := "12345678-1234-5678-1234-567812345678"
    exp := 100
    email := some "user@example.com"
    email_verified := true
    provider := some "supabase"
    roles := ["admin"]
    permissions := ["read:data"] }

/-- A provider behaviour whose verify_token returns a Failure. -/
def behFailW : ProviderBehavior :=
  { verifyTok := fun _ => .ret (.error .expiredSignatureError)
    userInfo := fun _ => .ret (.error .expiredSignatureError) }

end TemplateFastapi

deriving instance DecidableEq for Except

namespace TemplateFastapi

/- ----------------------------------------------------------------------
Theorems
---------------------------------------------------------------------- -/

/-- C2: the permission check validate_permissions (and the schemas
revision has_all_permissions) returns true exactly when every required
permission is among the user permissions; in particular an empty
requirement always passes. -/
theorem validate_permissions_iff_subset (u : AuthenticatedUser)
    (su : SimpleAuthenticatedUser) (req : List String) :
    (validatePermissions u req = true ↔ ∀ p ∈ req, p ∈ u.permissions) ∧
    validatePermissions u [] = true ∧
    (hasAllPermissions su req = true ↔ ∀ p ∈ req, p ∈ su.permissions) ∧
    hasAllPermissions su [] = true := by
  refine ⟨?_, rfl, ?_, rfl⟩ <;>
    simp [validatePermissions, hasAllPermissions, List.all_eq_true]

/-- C5: the role check validate_roles returns true exactly when some
required role is among the user roles, that is when the intersection of
the requirement and the user roles is non-empty; in particular an empty
requirement always fails. -/
theorem validate_roles_iff_intersection (u : AuthenticatedUser)
    (req : List String) :
    (validateRoles u req = true ↔ ∃ r ∈ req, r ∈ u.roles) ∧
    validateRoles u [] = false := by
  constructor
  · simp [validateRoles, List.any_eq_true]
  · rfl

/-- C9: for every input string, refresh_token and revoke_token of the
generic JWT provider fail with the NotImplementedProviderException
capability error in the exceptions revision, and with a
NotImplementedError Failure in the Either revision; none of them ever
returns a success value. -/
theorem refresh_revoke_always_not_implemented (s : String) :
    refreshTokenP s = .error (.notImplementedProviderException "refresh_token") ∧
    revokeTokenP s = .error (.notImplementedProviderException "revoke_token") ∧
    refreshTokenE s = .error .notImplementedError ∧
    revokeTokenE s = .error .notImplementedError ∧
    (refreshTokenP s).isOk = false ∧ (revokeTokenP s).isOk = false ∧
    (refreshTokenE s).isOk = false ∧ (revokeTokenE s).isOk = false :=
  ⟨rfl, rfl, rfl, rfl, rfl, rfl, rfl, rfl⟩

/-- C10: the Either-based AuthenticationService.authenticate is total as
a result-returning function: for every provider behaviour, including one
whose methods raise arbitrary exceptions, the call returns an Either
value normally and never propagates a raised exception. -/
theorem authenticateB_never_raises (p : ProviderBehavior) (tok : String) :
    (authenticateB p tok).isRet = true := by
  unfold authenticateB
  cases hv : p.verifyTok tok with
  | exn e => rfl
  | ret r =>
    cases r with
    | error e => rfl
    | ok _ => cases p.userInfo tok <;> rfl

/-- C8: whenever the token verifier fails — returning a Failure or
raising the exception — AuthenticationService.authenticate
short-circuits and returns exactly that originating exception as a
Failure, producing no AuthenticatedUser. -/
theorem authenticate_surfaces_verifier_failure (p : ProviderBehavior)
    (tok : String) (e : Exc)
    (h : p.verifyTok tok = .ret (.error e) ∨ p.verifyTok tok = .exn e) :
    authenticateB p tok = .ret (.error e) := by
  cases h with
  | inl h => simp [authenticateB, h]
  | inr h => simp [authenticateB, h]

/-- C8 witness: a provider behaviour whose verifier returns an expired
failure makes authenticate return that same failure. -/
theorem authenticate_surfaces_verifier_failure_witness :
    authenticateB behFailW "token" = .ret (.error .expiredSignatureError) :=
  authenticate_surfaces_verifier_failure behFailW "token"
    .expiredSignatureError (Or.inl rfl)

/-- Helper: with a populated cache, _get_signing_key leaves the state
unchanged and performs no fetch, whatever its result. -/
theorem getSigningKey_cached (env : VtsEnv) (doc : Jwks) (tok : Token) :
    getSigningKey env ⟨some doc⟩ tok =
      ((getSigningKey env ⟨some doc⟩ tok).1, ⟨some doc⟩, 0) := by
  rcases htk : tok.kid with _ | kid
  · simp [getSigningKey, htk]
  · by_cases hk : kid = ""
    · simp [getSigningKey, htk, hk]
    · rcases hf : doc.keys.find? (fun k => k.kid = kid) with _ | key <;>
        simp [getSigningKey, htk, hk, getJwks, hf]

/-- Helper: with a populated cache, one execute call leaves the state
unchanged and performs no fetch. -/
theorem vtsExecute_cached (env : VtsEnv) (now : Int) (doc : Jwks)
    (tok : Token) :
    (vtsExecute env ⟨some doc⟩ now tok).2 = (⟨some doc⟩, 0) := by
  unfold vtsExecute
  rw [getSigningKey_cached]
  cases (getSigningKey env ⟨some doc⟩ tok).1 with
  | error e => rfl
  | ok key =>
    dsimp only
    cases joseDecode tok key env.settings.audience
        ("https://" ++ env.settings.domain ++ "/") now with
    | ok claims =>
      dsimp only
      cases claims.sub <;> rfl
    | expired => rfl
    | jwtError m => rfl

/-- C6: once the JWKS cache is populated, a lookup returns the cached
document without fetching, and any sequence of verifications performs
zero further fetches and never modifies the cached key set. -/
theorem jwks_cache_single_fetch (env : VtsEnv) (now : Int) (doc : Jwks)
    (toks : List Token) :
    getJwks env ⟨some doc⟩ = (.ok doc, ⟨some doc⟩, 0) ∧
    runVerifications env now ⟨some doc⟩ toks = (⟨some doc⟩, 0) := by
  refine ⟨rfl, ?_⟩
  induction toks with
  | nil => rfl
  | cons t ts ih =>
    have h := vtsExecute_cached env now doc t
    simp [runVerifications, h, ih]

/-- C7: a token whose header kid is present but matches no key of the
cached key set makes the signing-key lookup fail with
InvalidTokenException carrying reason Signing key not found, without
attempting any re-fetch and without touching the cached set. -/
theorem signing_key_not_found_no_refetch (env : VtsEnv) (doc : Jwks)
    (tok : Token) (kid : String) (hkid : tok.kid = some kid)
    (hne : kid ≠ "")
    (hmiss : doc.keys.find? (fun k => k.kid = kid) = none) :
    getSigningKey env ⟨some doc⟩ tok =
      (.error (.invalidTokenException "Signing key not found"),
        ⟨some doc⟩, 0) := by
  simp [getSigningKey, hkid, hne, getJwks, hmiss]

/-- C7 witness: a token with kid nope against the cached one-key set of
docW yields the signing-key-not-found error with zero fetches. -/
theorem signing_key_not_found_no_refetch_witness :
    getSigningKey envW ⟨some docW⟩ tokNoKeyW =
      (.error (.invalidTokenException "Signing key not found"),
        ⟨some docW⟩, 0) :=
  signing_key_not_found_no_refetch envW docW tokNoKeyW "nope" rfl
    (by decide) (by decide)

/-- C1 (amended): for every token whose signing key resolves and whose
signature is valid under that key, an exp claim in the past makes
VerifyTokenService.execute fail with ExpiredTokenException — whatever
the audience and issuer claims are. The amendment restricts the original
claim to tokens with a valid signature: the jose library verifies the
signature before any claim, so an expired token with an invalid
signature fails with InvalidTokenException instead. -/
theorem vts_expired_token_with_valid_signature (env : VtsEnv)
    (st : VtsState) (now : Int) (tok : Token) (key : SigningKey)
    (st' : VtsState) (n : Nat)
    (hkey : getSigningKey env st tok = (.ok key, st', n))
    (hsig : tok.signedBy = some key.material)
    (e : Int) (hexp : tok.claims.exp = some e) (hlt : e < now) :
    vtsExecute env st now tok = (.error .expiredTokenException, st', n) := by
  unfold vtsExecute
  rw [hkey]
  unfold joseDecode
  rw [hsig, hexp]
  simp [hlt]

/-- C1 witness: a token signed by keyW with exp ten seconds in the past
is rejected as expired. -/
theorem vts_expired_token_with_valid_signature_witness :
    vtsExecute envW stW 0 tokExpW = (.error .expiredTokenException, stW, 0) :=
  vts_expired_token_with_valid_signature envW stW 0 tokExpW keyW stW 0
    (by decide) rfl (-10) rfl (by decide)

/-- C1 counterexample: a token whose exp claim is in the past but whose
signature does not verify fails with InvalidTokenException, not with
ExpiredTokenException, refuting the regardless-of-signature part of the
original claim. -/
theorem vts_expired_claim_masked_by_invalid_signature :
    tokBadSigW.claims.exp = some (-10) ∧ ((-10 : Int) < 0) ∧
    (vtsExecute envW stW 0 tokBadSigW).1 =
      .error (.invalidTokenException "Signature verification failed.") ∧
    (vtsExecute envW stW 0 tokBadSigW).1 ≠
      .error .expiredTokenException := by
  exact ⟨rfl, by decide, by decide, by decide⟩

/-- C3: the derivation of the user id from the token subject is
deterministic, so two authenticate calls on the same valid token always
resolve AuthenticatedUser values with the same user_id. -/
theorem authenticate_user_id_deterministic (cfg : ProvCfg) (now : Int)
    (tok : Token) (u₁ u₂ : AuthenticatedUser)
    (h₁ : authenticate cfg now tok = .ok u₁)
    (h₂ : authenticate cfg now tok = .ok u₂) :
    u₁.user_id = u₂.user_id := by
  rw [h₁] at h₂
  exact congrArg AuthenticatedUser.user_id (Except.ok.inj h₂)

/-- C3 witness: both authenticate calls on the valid token tokGoodW
resolve the user uW, whose user_id is the parsed UUID of the subject. -/
theorem authenticate_user_id_deterministic_witness :
    uW.user_id = uW.user_id :=
  authenticate_user_id_deterministic cfgW 0 tokGoodW uW uW
    (by decide) (by decide)

/-- C4 counterexample: a perfectly valid TokenPayload with no email claim
makes the AuthenticatedUser construction fail — the email field is an
EmailStr and the empty string fails its validation — so the identity
mapping of get_user_info is not total as the original claim states. -/
theorem toUser_fails_on_missing_email :
    toUser payloadNoEmailW =
      .error (.validationError "value is not a valid email address") := by
  decide

/-- C4 (amended): the identity mapping from a verified TokenPayload to
the AuthenticatedUser is pure and cannot fail provided the effective
email string — the payload email, or the empty string when absent —
passes email validation; the resulting user carries the derived user_id,
the copied flags, roles and permissions, and the subject as
provider_user_id. -/
theorem toUser_total_given_valid_email (p : TokenPayload)
    (h : isValidEmail (pyOr p.email "") = true) :
    toUser p = .ok
      { user_id := deriveUserId p.sub
        email := pyOr p.email ""
        email_verified := p.email_verified
        provider := pyOr p.provider "unknown"
        provider_user_id := p.sub
        roles := p.roles
        permissions := p.permissions } := by
  simp [toUser, mkAuthenticatedUser, h]

/-- C4 witness: the construction succeeds on a payload with a well-formed
email address. -/
theorem toUser_total_given_valid_email_witness :
    toUser payloadGoodW = .ok
      { user_id := deriveUserId payloadGoodW.sub
        email := pyOr payloadGoodW.email ""
        email_verified := payloadGoodW.email_verified
        provider := pyOr payloadGoodW.provider "unknown"
        provider_user_id := payloadGoodW.sub
        roles := payloadGoodW.roles
        permissions := payloadGoodW.permissions } :=
  toUser_total_given_valid_email payloadGoodW (by decide)

end TemplateFastapi
